import Mathlib

/-!
Verification of the fraud-scoring pipeline in `backend/app.py` of the RTFD
repository.  The `/predict` handler is modelled as a pure function from a
request context (loaded artifacts, customer-history snapshot, clock) and a
transaction request to an outcome: an HTTP-style response together with the
audit-log lines and alert dispatches the handler performs.

Numeric transaction fields are modelled as rationals, flags and counters from
the history store as integers, and timestamps as integers.  The classifier
(`model.predict`) and the SHAP explainer are opaque deterministic functions
supplied by the context, exactly as the pipeline treats them; the SHAP step
may fail, which the context models with an `Except` result.
-/

namespace RTFD

/-- The request body of `/predict` (`class Transaction` in `app.py`). -/
structure Transaction where
  Customer_ID : String
  Transaction_Type : String
  Transaction_Amount : ℚ
  Device_Type : String
deriving DecidableEq, Repr

/-- One row of the `FRAUD` dataset after the startup post-processing in
`app.py` (lower-cased column names, parsed `transaction_datetime`, and the
derived `hour`/`day`/`weekday` columns). -/
structure HistoryRecord where
  customer_id : String
  location : String
  payment_method : String
  failed_login_attempts : ℤ
  new_beneficiary_added : ℤ
  unusual_location : ℤ
  time_gap_between_transactions : ℚ
  transaction_frequency_per_day : ℚ
  transaction_datetime : ℤ
  hour : ℤ
  day : ℤ
  weekday : ℤ
deriving DecidableEq, Repr

/-- The `input_data` dict built in `predict` before categorical encoding:
request fields, fields of the selected history record, the derived calendar
features, and the derived `is_rtp` flag. -/
structure InputData where
  transaction_type : String
  transaction_amount : ℚ
  location : String
  device_type : String
  payment_method : String
  failed_login_attempts : ℤ
  new_beneficiary_added : ℤ
  unusual_location : ℤ
  time_gap_between_transactions : ℚ
  transaction_frequency_per_day : ℚ
  hour : ℤ
  day : ℤ
  weekday : ℤ
  is_rtp : ℤ
deriving DecidableEq, Repr

/-- The `input_data` dict after the encoding loop replaced the four categorical string
fields by integer codes. -/
structure EncodedInput where
  transaction_type : ℤ
  transaction_amount : ℚ
  location : ℤ
  device_type : ℤ
  payment_method : ℤ
  failed_login_attempts : ℤ
  new_beneficiary_added : ℤ
  unusual_location : ℤ
  time_gap_between_transactions : ℚ
  transaction_frequency_per_day : ℚ
  hour : ℤ
  day : ℤ
  weekday : ℤ
  is_rtp : ℤ
deriving DecidableEq, Repr

/-- The four categorical fields iterated over by the encoding loop in
`predict`, in loop order. -/
inductive CatField where
  | transaction_type
  | location
  | device_type
  | payment_method
deriving DecidableEq, Repr

/-- The loop order of the encoding loop:
`["transaction_type", "location", "device_type", "payment_method"]`. -/
def CatField.idx : CatField → Nat
  | .transaction_type => 0
  | .location => 1
  | .device_type => 2
  | .payment_method => 3

/-- The field's name as it appears in the error message. -/
def CatField.name : CatField → String
  | .transaction_type => "transaction_type"
  | .location => "location"
  | .device_type => "device_type"
  | .payment_method => "payment_method"

/-- The value `input_data[field]` of a categorical field. -/
def fieldValue (d : InputData) : CatField → String
  | .transaction_type => d.transaction_type
  | .location => d.location
  | .device_type => d.device_type
  | .payment_method => d.payment_method

/-- A fitted per-field `LabelEncoder`: its `classes_` array.  `transform` of a
known value is its index in `classes_`. -/
structure Encoder where
  classes : List String
deriving DecidableEq, Repr

/-- The code `encoder.transform([v])[0]`: the index of `v` in `classes_`. -/
def Encoder.transform (e : Encoder) (v : String) : ℤ :=
  (e.classes.indexOf v : ℤ)

/-- An HTTPException as raised by `predict`. -/
structure HTTPErr where
  status_code : Nat
  detail : String
deriving DecidableEq, Repr

/-- One line appended to `predictions.log` by `log_prediction`. -/
structure LogLine where
  time : ℤ
  customer_id : String
  rule : String
  ml : String
deriving DecidableEq, Repr

/-- One alert dispatched by `send_email_alert`. -/
structure Alert where
  customer_id : String
  fraud_type : String
  time : ℤ
deriving DecidableEq, Repr

/-- The successful response body of `/predict`. -/
structure PredictResponse where
  rule_based_result : String
  ml_prediction : String
  top_features : List (String × ℚ)
deriving DecidableEq, Repr

/-- Everything `predict` does for one request: the response (or the
HTTPException aborting it) plus the log lines appended and alerts sent. -/
structure Outcome where
  response : Except HTTPErr PredictResponse
  logs : List LogLine
  alerts : List Alert

/-- The process-wide state `predict` closes over: loaded artifacts (encoder
table, class map, classifier, SHAP explainer), the dataset snapshot loaded at
startup, and the clock used for log/alert timestamps.  The classifier and the
explainer are opaque deterministic functions; the explainer may fail. -/
structure Ctx where
  encoders : CatField → Option Encoder
  fraud_type_map : List (ℤ × String)
  model : EncodedInput → ℤ
  shap : EncodedInput → ℤ → Except String (List (String × ℚ))
  dataset : List HistoryRecord
  now : ℤ

/-- Python's `str.lower()`, used by the derived `is_rtp` flag. -/
def pyLower (s : String) : String :=
  ⟨s.data.map Char.toLower⟩

/-- Python's `str.strip()`: drop the leading and trailing whitespace of the
customer identifier. -/
def pyStrip (s : String) : String :=
  ⟨((s.data.dropWhile Char.isWhitespace).reverse.dropWhile Char.isWhitespace).reverse⟩

/-- The rows of the dataset matching the stripped customer id:
`dataset[dataset["customer_id"] == cust_id]`. -/
def rowsFor (ctx : Ctx) (txn : Transaction) : List HistoryRecord :=
  ctx.dataset.filter (fun r => r.customer_id == pyStrip txn.Customer_ID)

/-- Keep the row with the later timestamp. -/
def pickLater (best x : HistoryRecord) : HistoryRecord :=
  if best.transaction_datetime < x.transaction_datetime then x else best

/-- The row `cust_data.sort_values(by="transaction_datetime", ascending=False).iloc[0]`:
a row of maximal `transaction_datetime`, or `none` when `cust_data` is empty. -/
def latestRecord : List HistoryRecord → Option HistoryRecord
  | [] => none
  | r :: rs => some (rs.foldl pickLater r)

/-- Building the `input_data` dict from the request and the selected latest
history record. -/
def buildInput (txn : Transaction) (latest : HistoryRecord) : InputData :=
  { transaction_type := txn.Transaction_Type
    transaction_amount := txn.Transaction_Amount
    location := latest.location
    device_type := txn.Device_Type
    payment_method := latest.payment_method
    failed_login_attempts := latest.failed_login_attempts
    new_beneficiary_added := latest.new_beneficiary_added
    unusual_location := latest.unusual_location
    time_gap_between_transactions := latest.time_gap_between_transactions
    transaction_frequency_per_day := latest.transaction_frequency_per_day
    hour := latest.hour
    day := latest.day
    weekday := latest.weekday
    is_rtp := if pyLower txn.Transaction_Type == "rtp" then 1 else 0 }

/-- The rule-based logic of `predict`, evaluated on `input_data` before the
encoding loop runs. -/
def ruleBasedResult (d : InputData) : String :=
  if d.new_beneficiary_added = 1 ∧ d.transaction_amount > 5000 then "APP Fraud"
  else if d.failed_login_attempts > 2 ∧ d.unusual_location = 1 then "ATO + RTP Drain"
  else "None"

/-- One iteration of the encoding loop: `encoders.get(field)`, the
membership test against `classes_`, and the 400 `HTTPException` on the
`else` branch (taken both for an unseen value and for a missing encoder). -/
def encodeField (encs : CatField → Option Encoder) (d : InputData) (f : CatField) :
    Except HTTPErr ℤ :=
  match encs f with
  | some e =>
      if fieldValue d f ∈ e.classes then .ok (e.transform (fieldValue d f))
      else .error ⟨400, "Unknown value for " ++ f.name ++ ": " ++ fieldValue d f⟩
  | none => .error ⟨400, "Unknown value for " ++ f.name ++ ": " ++ fieldValue d f⟩

/-- The whole encoding loop, in loop order; the first failing field aborts. -/
def encodeAll (encs : CatField → Option Encoder) (d : InputData) :
    Except HTTPErr EncodedInput := do
  let tt ← encodeField encs d .transaction_type
  let loc ← encodeField encs d .location
  let dt ← encodeField encs d .device_type
  let pm ← encodeField encs d .payment_method
  pure
    { transaction_type := tt
      transaction_amount := d.transaction_amount
      location := loc
      device_type := dt
      payment_method := pm
      failed_login_attempts := d.failed_login_attempts
      new_beneficiary_added := d.new_beneficiary_added
      unusual_location := d.unusual_location
      time_gap_between_transactions := d.time_gap_between_transactions
      transaction_frequency_per_day := d.transaction_frequency_per_day
      hour := d.hour
      day := d.day
      weekday := d.weekday
      is_rtp := d.is_rtp }

/-- The label `fraud_type_map.get(prediction_code, "Unknown")`. -/
def mlLabel (ctx : Ctx) (code : ℤ) : String :=
  ((ctx.fraud_type_map.lookup code).getD "Unknown")

/-- The descending-magnitude order used to sort feature contributions. -/
def magGE (a b : String × ℚ) : Prop := b.2 ≤ a.2

instance : DecidableRel magGE := fun a b => inferInstanceAs (Decidable (b.2 ≤ a.2))

instance : IsTotal (String × ℚ) magGE := ⟨fun a b => le_total b.2 a.2⟩

instance : IsTrans (String × ℚ) magGE :=
  ⟨fun _ _ _ h h' => le_trans h' h⟩

/-- The SHAP post-processing:
`pd.Series(contrib, index=columns).abs().sort_values(ascending=False).head(3)`.
Takes the per-feature contributions for the predicted class, replaces each by
its absolute value, sorts by descending magnitude and keeps the top three. -/
def topFeatures (contribs : List (String × ℚ)) : List (String × ℚ) :=
  (((contribs.map (fun p => (p.1, |p.2|))).insertionSort magGE).take 3)

/-- The two fraud labels that trigger an alert. -/
def fraudLabels : List String := ["APP Fraud", "ATO + RTP Drain"]

/-- The tail of `predict` once the customer was found, all four categorical
fields encoded, the model scored and the SHAP step succeeded: the combined
response, the single audit-log line, and the conditional alert. -/
def successOutcome (ctx : Ctx) (txn : Transaction) (latest : HistoryRecord)
    (enc : EncodedInput) (contribs : List (String × ℚ)) : Outcome :=
  let cust_id := pyStrip txn.Customer_ID
  let rule := ruleBasedResult (buildInput txn latest)
  let ml := mlLabel ctx (ctx.model enc)
  { response := .ok
      { rule_based_result := rule
        ml_prediction := ml ++ " (ML-Based)"
        top_features := topFeatures contribs }
    logs := [{ time := ctx.now, customer_id := cust_id, rule := rule, ml := ml }]
    alerts :=
      if rule ∈ fraudLabels ∨ ml ∈ fraudLabels then
        [{ customer_id := cust_id
           fraud_type := if rule ≠ "None" then rule else ml
           time := ctx.now }]
      else [] }

/-- The `/predict` handler.  An exception raised inside the SHAP block is not
handled locally: it falls through to the handler's generic
`except Exception` clause and resurfaces as a 500 `HTTPException`. -/
def predict (ctx : Ctx) (txn : Transaction) : Outcome :=
  match latestRecord (rowsFor ctx txn) with
  | none => { response := .error ⟨404, "Customer ID not found"⟩, logs := [], alerts := [] }
  | some latest =>
      match encodeAll ctx.encoders (buildInput txn latest) with
      | .error e => { response := .error e, logs := [], alerts := [] }
      | .ok enc =>
          match ctx.shap enc (ctx.model enc) with
          | .error msg =>
              { response := .error ⟨500, msg⟩, logs := [], alerts := [] }
          | .ok contribs => successOutcome ctx txn latest enc contribs

/-- The test `encoder and input_data[field] in encoder.classes_`: the field's
encoder exists and the field's current value appears in its classes. -/
def knownValue (encs : CatField → Option Encoder) (d : InputData) (f : CatField) : Bool :=
  match encs f with
  | some e => e.classes.contains (fieldValue d f)
  | none => false

/-!
Concrete fixtures used to witness the theorems below: a one-customer dataset
snapshot, singleton encoder tables, a constant classifier and a stub SHAP
explainer.  `rec1` and `rec2` are two history rows for customer `CUST001`,
`rec1` the more recent.
-/

def rec1 : HistoryRecord :=
  { customer_id := "CUST001", location := "NY", payment_method := "ACH"
    failed_login_attempts := 4, new_beneficiary_added := 0, unusual_location := 1
    time_gap_between_transactions := 1, transaction_frequency_per_day := 1
    transaction_datetime := 100, hour := 10, day := 5, weekday := 4 }

def rec2 : HistoryRecord :=
  { customer_id := "CUST001", location := "LA", payment_method := "CARD"
    failed_login_attempts := 0, new_beneficiary_added := 0, unusual_location := 0
    time_gap_between_transactions := 2, transaction_frequency_per_day := 1
    transaction_datetime := 50, hour := 9, day := 1, weekday := 1 }

def encsA : CatField → Option Encoder
  | .transaction_type => some ⟨["transfer"]⟩
  | .location => some ⟨["NY"]⟩
  | .device_type => some ⟨["web"]⟩
  | .payment_method => some ⟨["ACH"]⟩

def contribsA : List (String × ℚ) :=
  [("transaction_amount", 2), ("hour", -3)]

def ctxA : Ctx :=
  { encoders := encsA
    fraud_type_map := [(0, "None"), (1, "APP Fraud"), (2, "ATO + RTP Drain")]
    model := fun _ => 0
    shap := fun _ _ => .ok contribsA
    dataset := [rec1, rec2]
    now := 999 }

def txnA : Transaction :=
  { Customer_ID := " CUST001 ", Transaction_Type := "transfer"
    Transaction_Amount := 200, Device_Type := "web" }

/-- The request of an unknown customer. -/
def txnB : Transaction :=
  { Customer_ID := "NOBODY", Transaction_Type := "transfer"
    Transaction_Amount := 200, Device_Type := "web" }

/-- The request `txnA` with a device type absent from the encoder table. -/
def txnC : Transaction :=
  { Customer_ID := " CUST001 ", Transaction_Type := "transfer"
    Transaction_Amount := 200, Device_Type := "toaster" }

/-- The encoded feature vector `predict` builds from `txnA` and `rec1` under
`encsA` (every categorical value is at index 0 of its singleton classes). -/
def encA : EncodedInput :=
  { transaction_type := 0, transaction_amount := 200, location := 0
    device_type := 0, payment_method := 0, failed_login_attempts := 4
    new_beneficiary_added := 0, unusual_location := 1
    time_gap_between_transactions := 1, transaction_frequency_per_day := 1
    hour := 10, day := 5, weekday := 4, is_rtp := 0 }

/-- The context `ctxA` with a SHAP explainer that always fails. -/
def ctxC1 : Ctx :=
  { ctxA with shap := fun _ _ => .error "shap exploded" }

/-- The context `ctxA` with no encoder at all for `payment_method`. -/
def ctxC10 : Ctx :=
  { ctxA with encoders := fun f =>
      match f with
      | .payment_method => none
      | g => encsA g }

/-! ### Helper lemmas about the customer-context resolver -/

theorem foldl_pickLater_mem (r : HistoryRecord) (rs : List HistoryRecord) :
    rs.foldl pickLater r ∈ r :: rs := by
  induction rs generalizing r with
  | nil => simp
  | cons a as ih =>
      simp only [List.foldl_cons]
      rcases List.mem_cons.mp (ih (pickLater r a)) with h1 | h1
      · rw [h1, pickLater]
        split
        · exact List.mem_cons_of_mem _ (List.mem_cons_self _ _)
        · exact List.mem_cons_self _ _
      · exact List.mem_cons_of_mem _ (List.mem_cons_of_mem _ h1)

theorem foldl_pickLater_ge (r : HistoryRecord) (rs : List HistoryRecord) :
    ∀ y ∈ r :: rs, y.transaction_datetime ≤ (rs.foldl pickLater r).transaction_datetime := by
  induction rs generalizing r with
  | nil =>
      intro y hy
      rw [List.mem_singleton] at hy
      rw [hy]
      simp
  | cons a as ih =>
      intro y hy
      simp only [List.foldl_cons]
      have hr : r.transaction_datetime ≤ (pickLater r a).transaction_datetime := by
        rw [pickLater]; split <;> omega
      have ha : a.transaction_datetime ≤ (pickLater r a).transaction_datetime := by
        rw [pickLater]; split <;> omega
      have htop := ih (pickLater r a) (pickLater r a) (List.mem_cons_self _ _)
      rcases List.mem_cons.mp hy with h1 | h1
      · exact h1 ▸ hr.trans htop
      · rcases List.mem_cons.mp h1 with h2 | h2
        · exact h2 ▸ ha.trans htop
        · exact ih (pickLater r a) y (List.mem_cons_of_mem _ h2)

theorem latestRecord_mem {l : List HistoryRecord} {x : HistoryRecord}
    (h : latestRecord l = some x) : x ∈ l := by
  cases l with
  | nil => simp [latestRecord] at h
  | cons r rs =>
      simp only [latestRecord, Option.some.injEq] at h
      exact h ▸ foldl_pickLater_mem r rs

theorem latestRecord_ge {l : List HistoryRecord} {x : HistoryRecord}
    (h : latestRecord l = some x) :
    ∀ y ∈ l, y.transaction_datetime ≤ x.transaction_datetime := by
  cases l with
  | nil => simp
  | cons r rs =>
      simp only [latestRecord, Option.some.injEq] at h
      exact fun y hy => h ▸ foldl_pickLater_ge r rs y hy

/-! ### The claims -/

/-- C7: the customer context resolver trims surrounding whitespace from the
request's customer identifier, matches stored identifiers exactly (and hence
case-sensitively), and selects a record whose transaction timestamp is
maximal among the customer's records. -/
theorem resolver_trims_matches_selects_latest (ctx : Ctx) (txn : Transaction)
    (latest : HistoryRecord) (h : latestRecord (rowsFor ctx txn) = some latest) :
    latest.customer_id = pyStrip txn.Customer_ID ∧
    latest ∈ ctx.dataset ∧
    ∀ r ∈ ctx.dataset, r.customer_id = pyStrip txn.Customer_ID →
      r.transaction_datetime ≤ latest.transaction_datetime := by
  have hmem := latestRecord_mem h
  rw [rowsFor, List.mem_filter] at hmem
  refine ⟨by simpa using hmem.2, hmem.1, ?_⟩
  intro r hr hid
  exact latestRecord_ge h r (by rw [rowsFor, List.mem_filter]; exact ⟨hr, by simp [hid]⟩)

theorem resolver_trims_matches_selects_latest_witness :
    latestRecord (rowsFor ctxA txnA) = some rec1 ∧
    (rec1.customer_id = pyStrip txnA.Customer_ID ∧
      rec1 ∈ ctxA.dataset ∧
      ∀ r ∈ ctxA.dataset, r.customer_id = pyStrip txnA.Customer_ID →
        r.transaction_datetime ≤ rec1.transaction_datetime) :=
  ⟨by decide, resolver_trims_matches_selects_latest ctxA txnA rec1 (by decide)⟩

/-- C2: the rule verdict is a pure function of the enriched pre-encoding
feature vector, evaluated first-match-wins: it is "APP Fraud" exactly when
rule 1 fires, "ATO + RTP Drain" exactly when rule 1 does not fire and rule 2
does, and "None" exactly when neither fires; in particular rule 1 takes
precedence when both conditions hold. -/
theorem rule_engine_first_match_wins (d : InputData) :
    (ruleBasedResult d = "APP Fraud" ↔
      (d.new_beneficiary_added = 1 ∧ d.transaction_amount > 5000)) ∧
    (ruleBasedResult d = "ATO + RTP Drain" ↔
      (¬(d.new_beneficiary_added = 1 ∧ d.transaction_amount > 5000) ∧
        (d.failed_login_attempts > 2 ∧ d.unusual_location = 1))) ∧
    (ruleBasedResult d = "None" ↔
      (¬(d.new_beneficiary_added = 1 ∧ d.transaction_amount > 5000) ∧
        ¬(d.failed_login_attempts > 2 ∧ d.unusual_location = 1))) := by
  unfold ruleBasedResult
  split_ifs with h1 h2
  · simp [h1]
  · refine ⟨?_, ?_, ?_⟩
    · simp [h1]
    · simp [h1, h2]
    · constructor
      · intro h; exact absurd h (by simp)
      · rintro ⟨-, hc⟩; exact absurd h2 hc
  · refine ⟨?_, ?_, ?_⟩
    · simp [h1]
    · constructor
      · intro h; exact absurd h (by simp)
      · rintro ⟨-, hc⟩; exact absurd hc h2
    · constructor
      · intro _; exact ⟨h1, h2⟩
      · intro _; rfl

/-- C6: when the trimmed customer identifier matches no history record, the
request fails with a 404 "Customer ID not found" error and neither logs nor
alerts. -/
theorem customer_not_found_aborts (ctx : Ctx) (txn : Transaction)
    (h : rowsFor ctx txn = []) :
    (predict ctx txn).response = .error ⟨404, "Customer ID not found"⟩ ∧
    (predict ctx txn).logs = [] ∧ (predict ctx txn).alerts = [] := by
  simp [predict, h, latestRecord]

theorem customer_not_found_aborts_witness :
    rowsFor ctxA txnB = [] ∧
    ((predict ctxA txnB).response = .error ⟨404, "Customer ID not found"⟩ ∧
      (predict ctxA txnB).logs = [] ∧ (predict ctxA txnB).alerts = []) :=
  ⟨by decide, customer_not_found_aborts ctxA txnB (by decide)⟩

/-! ### Helper lemmas about the encoding loop -/

theorem encodeField_err {encs : CatField → Option Encoder} {d : InputData} {f : CatField}
    (h : knownValue encs d f = false) :
    encodeField encs d f =
      .error ⟨400, "Unknown value for " ++ f.name ++ ": " ++ fieldValue d f⟩ := by
  unfold encodeField
  cases hf : encs f with
  | none => rfl
  | some e =>
      unfold knownValue at h
      rw [hf] at h
      have : fieldValue d f ∉ e.classes := by simpa using h
      simp [this]

theorem encodeField_ok {encs : CatField → Option Encoder} {d : InputData} {f : CatField}
    (h : knownValue encs d f = true) :
    ∃ z, encodeField encs d f = .ok z := by
  unfold encodeField
  cases hf : encs f with
  | none => unfold knownValue at h; rw [hf] at h; exact absurd h (by simp)
  | some e =>
      unfold knownValue at h
      rw [hf] at h
      have : fieldValue d f ∈ e.classes := by simpa using h
      exact ⟨e.transform (fieldValue d f), by simp [this]⟩

theorem encodeAll_err_first {encs : CatField → Option Encoder} {d : InputData} {e : HTTPErr}
    (h : encodeField encs d .transaction_type = .error e) :
    encodeAll encs d = .error e := by
  unfold encodeAll; rw [h]; rfl

theorem encodeAll_err_second {encs : CatField → Option Encoder} {d : InputData}
    {z : ℤ} {e : HTTPErr}
    (h1 : encodeField encs d .transaction_type = .ok z)
    (h2 : encodeField encs d .location = .error e) :
    encodeAll encs d = .error e := by
  unfold encodeAll; rw [h1, h2]; rfl

theorem encodeAll_err_third {encs : CatField → Option Encoder} {d : InputData}
    {z1 z2 : ℤ} {e : HTTPErr}
    (h1 : encodeField encs d .transaction_type = .ok z1)
    (h2 : encodeField encs d .location = .ok z2)
    (h3 : encodeField encs d .device_type = .error e) :
    encodeAll encs d = .error e := by
  unfold encodeAll; rw [h1, h2, h3]; rfl

theorem encodeAll_err_fourth {encs : CatField → Option Encoder} {d : InputData}
    {z1 z2 z3 : ℤ} {e : HTTPErr}
    (h1 : encodeField encs d .transaction_type = .ok z1)
    (h2 : encodeField encs d .location = .ok z2)
    (h3 : encodeField encs d .device_type = .ok z3)
    (h4 : encodeField encs d .payment_method = .error e) :
    encodeAll encs d = .error e := by
  unfold encodeAll; rw [h1, h2, h3, h4]; rfl

theorem predict_encode_err {ctx : Ctx} {txn : Transaction} {latest : HistoryRecord}
    {e : HTTPErr}
    (hL : latestRecord (rowsFor ctx txn) = some latest)
    (hE : encodeAll ctx.encoders (buildInput txn latest) = .error e) :
    (predict ctx txn).response = .error e ∧
    (predict ctx txn).logs = [] ∧ (predict ctx txn).alerts = [] := by
  simp [predict, hL, hE]

/-- C5: when at least one of the four categorical fields holds a value absent
from its encoder table, the request fails with a 400 client error whose
message names an offending field and its value, and the request is aborted
with no audit logging and no alerting (so no prediction is produced from
partially encoded data). -/
theorem unknown_value_aborts (ctx : Ctx) (txn : Transaction) (latest : HistoryRecord)
    (hL : latestRecord (rowsFor ctx txn) = some latest)
    (hbad : ∃ f, knownValue ctx.encoders (buildInput txn latest) f = false) :
    ∃ f, knownValue ctx.encoders (buildInput txn latest) f = false ∧
      (predict ctx txn).response = .error ⟨400,
        "Unknown value for " ++ f.name ++ ": " ++ fieldValue (buildInput txn latest) f⟩ ∧
      (predict ctx txn).logs = [] ∧ (predict ctx txn).alerts = [] := by
  cases k1 : knownValue ctx.encoders (buildInput txn latest) .transaction_type with
  | false =>
      exact ⟨.transaction_type, k1,
        predict_encode_err hL (encodeAll_err_first (encodeField_err k1))⟩
  | true =>
      obtain ⟨z1, hz1⟩ := encodeField_ok k1
      cases k2 : knownValue ctx.encoders (buildInput txn latest) .location with
      | false =>
          exact ⟨.location, k2,
            predict_encode_err hL (encodeAll_err_second hz1 (encodeField_err k2))⟩
      | true =>
          obtain ⟨z2, hz2⟩ := encodeField_ok k2
          cases k3 : knownValue ctx.encoders (buildInput txn latest) .device_type with
          | false =>
              exact ⟨.device_type, k3,
                predict_encode_err hL (encodeAll_err_third hz1 hz2 (encodeField_err k3))⟩
          | true =>
              obtain ⟨z3, hz3⟩ := encodeField_ok k3
              cases k4 : knownValue ctx.encoders (buildInput txn latest) .payment_method with
              | false =>
                  exact ⟨.payment_method, k4,
                    predict_encode_err hL
                      (encodeAll_err_fourth hz1 hz2 hz3 (encodeField_err k4))⟩
              | true =>
                  obtain ⟨f, hf⟩ := hbad
                  cases f <;> simp_all

theorem unknown_value_aborts_witness :
    knownValue ctxA.encoders (buildInput txnC rec1) CatField.device_type = false ∧
    ∃ f, knownValue ctxA.encoders (buildInput txnC rec1) f = false ∧
      (predict ctxA txnC).response = .error ⟨400,
        "Unknown value for " ++ f.name ++ ": " ++ fieldValue (buildInput txnC rec1) f⟩ ∧
      (predict ctxA txnC).logs = [] ∧ (predict ctxA txnC).alerts = [] :=
  ⟨by decide, unknown_value_aborts ctxA txnC rec1 (by decide)
    ⟨CatField.device_type, by decide⟩⟩

/-- C10: when the encoder table has no encoder at all for one of the four
categorical fields, and every earlier field in the loop order encodes
successfully, the request fails with the same 400 "Unknown value" client
error naming that field — not with an internal server error. -/
theorem missing_encoder_same_client_error (ctx : Ctx) (txn : Transaction)
    (latest : HistoryRecord) (f : CatField)
    (hL : latestRecord (rowsFor ctx txn) = some latest)
    (hmiss : ctx.encoders f = none)
    (hearlier : ∀ g : CatField, g.idx < f.idx →
        knownValue ctx.encoders (buildInput txn latest) g = true) :
    (predict ctx txn).response = .error ⟨400,
      "Unknown value for " ++ f.name ++ ": " ++ fieldValue (buildInput txn latest) f⟩ := by
  have hf : knownValue ctx.encoders (buildInput txn latest) f = false := by
    unfold knownValue; rw [hmiss]
  cases f with
  | transaction_type =>
      exact (predict_encode_err hL (encodeAll_err_first (encodeField_err hf))).1
  | location =>
      obtain ⟨z1, hz1⟩ := encodeField_ok (hearlier .transaction_type (by decide))
      exact (predict_encode_err hL
        (encodeAll_err_second hz1 (encodeField_err hf))).1
  | device_type =>
      obtain ⟨z1, hz1⟩ := encodeField_ok (hearlier .transaction_type (by decide))
      obtain ⟨z2, hz2⟩ := encodeField_ok (hearlier .location (by decide))
      exact (predict_encode_err hL
        (encodeAll_err_third hz1 hz2 (encodeField_err hf))).1
  | payment_method =>
      obtain ⟨z1, hz1⟩ := encodeField_ok (hearlier .transaction_type (by decide))
      obtain ⟨z2, hz2⟩ := encodeField_ok (hearlier .location (by decide))
      obtain ⟨z3, hz3⟩ := encodeField_ok (hearlier .device_type (by decide))
      exact (predict_encode_err hL
        (encodeAll_err_fourth hz1 hz2 hz3 (encodeField_err hf))).1

theorem missing_encoder_same_client_error_witness :
    ctxC10.encoders CatField.payment_method = none ∧
    (predict ctxC10 txnA).response =
      .error ⟨400, "Unknown value for payment_method: ACH"⟩ := by
  constructor
  · rfl
  · have h := missing_encoder_same_client_error ctxC10 txnA rec1 .payment_method
      (by decide) rfl (by intro g hg; revert hg; cases g <;> decide)
    rw [h]
    exact congrArg Except.error (by decide)

/-! ### Attribution failure, alerting, audit log, attribution shape,
determinism -/

/-- C1 (counterexample): a request that reaches the attribution step (the
customer is found, all four categorical fields encode, the model prediction
is obtained) whose attribution computation fails is aborted with a 500
internal error — it does not return a complete result with an empty
attribution list. -/
theorem shap_failure_returns_500_counterexample :
    latestRecord (rowsFor ctxC1 txnA) = some rec1 ∧
    encodeAll ctxC1.encoders (buildInput txnA rec1) = Except.ok encA ∧
    ctxC1.shap encA (ctxC1.model encA) = Except.error "shap exploded" ∧
    (predict ctxC1 txnA).response = Except.error ⟨500, "shap exploded"⟩ ∧
    (predict ctxC1 txnA).response.toOption = none ∧
    (predict ctxC1 txnA).logs = [] ∧ (predict ctxC1 txnA).alerts = [] :=
  ⟨by decide, rfl, rfl, rfl, rfl, rfl, rfl⟩

/-- C1 (amended): for every request that reaches the attribution step, if the
attribution computation fails, the failure propagates through the handler's
generic exception clause: the request aborts with a 500 internal error
carrying the failure message, with no audit log line and no alert — it does
not degrade to a result with an empty attribution list. -/
theorem shap_failure_aborts_with_500 (ctx : Ctx) (txn : Transaction)
    (latest : HistoryRecord) (enc : EncodedInput) (msg : String)
    (hL : latestRecord (rowsFor ctx txn) = some latest)
    (hE : encodeAll ctx.encoders (buildInput txn latest) = .ok enc)
    (hS : ctx.shap enc (ctx.model enc) = .error msg) :
    (predict ctx txn).response = .error ⟨500, msg⟩ ∧
    (predict ctx txn).logs = [] ∧ (predict ctx txn).alerts = [] := by
  simp [predict, hL, hE, hS]

theorem shap_failure_aborts_with_500_witness :
    (predict ctxC1 txnA).response = Except.error ⟨500, "shap exploded"⟩ ∧
    (predict ctxC1 txnA).logs = [] ∧ (predict ctxC1 txnA).alerts = [] :=
  shap_failure_aborts_with_500 ctxC1 txnA rec1 encA "shap exploded"
    (by decide) rfl rfl

/-- C3: for every successfully scored request, exactly one alert is
dispatched when the rule verdict or the model verdict is one of the two
fraud labels, and none otherwise; the dispatched alert's fraud-type field is
the rule verdict when that is not "None", otherwise the model verdict. -/
theorem alert_fires_iff (ctx : Ctx) (txn : Transaction) (latest : HistoryRecord)
    (enc : EncodedInput) (contribs : List (String × ℚ))
    (hL : latestRecord (rowsFor ctx txn) = some latest)
    (hE : encodeAll ctx.encoders (buildInput txn latest) = .ok enc)
    (hS : ctx.shap enc (ctx.model enc) = .ok contribs) :
    (predict ctx txn).alerts =
      (if ruleBasedResult (buildInput txn latest) ∈ fraudLabels ∨
          mlLabel ctx (ctx.model enc) ∈ fraudLabels then
        [{ customer_id := pyStrip txn.Customer_ID
           fraud_type :=
             if ruleBasedResult (buildInput txn latest) ≠ "None" then
               ruleBasedResult (buildInput txn latest)
             else mlLabel ctx (ctx.model enc)
           time := ctx.now }]
      else []) := by
  simp [predict, hL, hE, hS, successOutcome]

theorem alert_fires_iff_witness :
    (predict ctxA txnA).alerts =
      [{ customer_id := "CUST001", fraud_type := "ATO + RTP Drain", time := 999 }] := by
  have h := alert_fires_iff ctxA txnA rec1 encA contribsA (by decide) rfl rfl
  rw [h]
  decide

/-- C4: a request aborted by any error appends no audit-log line, and every
successfully scored request appends exactly one line holding the timestamp,
the stripped customer identifier, the rule verdict and the model verdict. -/
theorem audit_log_iff_scored (ctx : Ctx) (txn : Transaction) :
    (∀ e, (predict ctx txn).response = .error e → (predict ctx txn).logs = []) ∧
    (∀ latest enc contribs,
        latestRecord (rowsFor ctx txn) = some latest →
        encodeAll ctx.encoders (buildInput txn latest) = .ok enc →
        ctx.shap enc (ctx.model enc) = .ok contribs →
        (predict ctx txn).logs =
          [{ time := ctx.now
             customer_id := pyStrip txn.Customer_ID
             rule := ruleBasedResult (buildInput txn latest)
             ml := mlLabel ctx (ctx.model enc) }]) := by
  constructor
  · intro e he
    cases hL : latestRecord (rowsFor ctx txn) with
    | none => simp [predict, hL]
    | some latest =>
        cases hE : encodeAll ctx.encoders (buildInput txn latest) with
        | error e2 => simp [predict, hL, hE]
        | ok enc =>
            cases hS : ctx.shap enc (ctx.model enc) with
            | error msg => simp [predict, hL, hE, hS]
            | ok contribs =>
                exfalso
                simp [predict, hL, hE, hS, successOutcome] at he
  · intro latest enc contribs hL hE hS
    simp [predict, hL, hE, hS, successOutcome]

theorem audit_log_iff_scored_witness :
    (predict ctxA txnA).logs =
      [{ time := 999, customer_id := "CUST001"
         rule := "ATO + RTP Drain", ml := "None" }] := by
  have h := (audit_log_iff_scored ctxA txnA).2 rec1 encA contribsA (by decide) rfl rfl
  rw [h]
  decide

theorem topFeatures_spec (contribs : List (String × ℚ)) :
    (topFeatures contribs).length ≤ 3 ∧
    (∀ p ∈ topFeatures contribs, 0 ≤ p.2) ∧
    List.Sorted magGE (topFeatures contribs) := by
  refine ⟨?_, ?_, ?_⟩
  · rw [topFeatures]
    exact (List.length_take_le 3 _)
  · intro p hp
    have hp2 : p ∈ (contribs.map (fun q => (q.1, |q.2|))).insertionSort magGE :=
      List.mem_of_mem_take hp
    rw [List.mem_insertionSort] at hp2
    obtain ⟨q, -, rfl⟩ := List.mem_map.mp hp2
    exact abs_nonneg _
  · exact List.Pairwise.sublist (List.take_sublist 3 _)
      (List.sorted_insertionSort magGE _)

/-- C8: every successfully scored request returns a top-features attribution
list with at most 3 entries, all magnitudes non-negative (each contribution
is taken in absolute value), ordered by non-increasing magnitude. -/
theorem top_features_bounded_sorted_nonneg (ctx : Ctx) (txn : Transaction)
    (r : PredictResponse) (h : (predict ctx txn).response = .ok r) :
    r.top_features.length ≤ 3 ∧
    (∀ p ∈ r.top_features, 0 ≤ p.2) ∧
    List.Sorted magGE r.top_features := by
  cases hL : latestRecord (rowsFor ctx txn) with
  | none => simp [predict, hL] at h
  | some latest =>
      cases hE : encodeAll ctx.encoders (buildInput txn latest) with
      | error e => simp [predict, hL, hE] at h
      | ok enc =>
          cases hS : ctx.shap enc (ctx.model enc) with
          | error msg => simp [predict, hL, hE, hS] at h
          | ok contribs =>
              simp only [predict, hL, hE, hS, successOutcome,
                Except.ok.injEq] at h
              rw [← h]
              exact topFeatures_spec contribs

theorem top_features_bounded_sorted_nonneg_witness :
    (predict ctxA txnA).response =
      .ok { rule_based_result := "ATO + RTP Drain"
            ml_prediction := "None (ML-Based)"
            top_features := topFeatures contribsA } ∧
    ((topFeatures contribsA).length ≤ 3 ∧
      (∀ p ∈ topFeatures contribsA, 0 ≤ p.2) ∧
      List.Sorted magGE (topFeatures contribsA)) :=
  ⟨rfl, top_features_bounded_sorted_nonneg ctxA txnA
    { rule_based_result := "ATO + RTP Drain"
      ml_prediction := "None (ML-Based)"
      top_features := topFeatures contribsA } rfl⟩

/-- C9: scoring the same immutable request twice against the same loaded
artifacts and the same history snapshot (the same context) yields identical
rule verdicts and identical model verdicts. -/
theorem scoring_deterministic (ctx : Ctx) (txn : Transaction)
    (r1 r2 : PredictResponse)
    (h1 : (predict ctx txn).response = .ok r1)
    (h2 : (predict ctx txn).response = .ok r2) :
    r1.rule_based_result = r2.rule_based_result ∧
    r1.ml_prediction = r2.ml_prediction := by
  rw [h1] at h2
  injection h2 with h
  rw [h]
  exact ⟨rfl, rfl⟩

theorem scoring_deterministic_witness :
    "ATO + RTP Drain" = "ATO + RTP Drain" ∧
    "None (ML-Based)" = "None (ML-Based)" := by
  have h := scoring_deterministic ctxA txnA
    { rule_based_result := "ATO + RTP Drain"
      ml_prediction := "None (ML-Based)"
      top_features := topFeatures contribsA }
    { rule_based_result := "ATO + RTP Drain"
      ml_prediction := "None (ML-Based)"
      top_features := topFeatures contribsA } rfl rfl
  exact h

end RTFD
